import Mathlib

/-!
Shallow embedding of `gitlab/v4/objects/artifacts.py`: the artifact endpoint
bindings `ProjectArtifactManager` and `ProjectJobArtifactManager` of the
python-gitlab repository. HTTP traffic is made explicit: every operation
returns the list of requests it hands to the HTTP collaborator together with
its outcome, and the collaborator's reply to the single request an operation
issues is an input of the operation.
-/

namespace Artifacts

/-- The collaborator's reply to the single HTTP request an operation issues:
either a successful (2xx) response carrying the whole body (a byte list,
each byte a natural number), or a rejection carrying the HTTP status. -/
inductive ServerReply where
  | ok (body : List Nat)
  | reject (status : Nat)
  deriving DecidableEq, Repr

/-- The error kinds of the spec's taxonomy (section 7) that the artifact
operations can surface: the authentication kind, the Get kind, the Delete
kind, and the generic server-error kind for unexpected statuses. -/
inductive GitlabError where
  | authError (status : Nat)
  | getError (status : Nat)
  | deleteError (status : Nat)
  | serverError (status : Nat)
  deriving DecidableEq, Repr

/-- Modelled from the spec: the HTTP collaborator (`gitlab.http_get` and
`gitlab.http_delete`, repository code not under src) translates any non-2xx
status into an error, in the three buckets of spec section 6: 401/403
become the authentication kind; 404 (NotFound) is surfaced through the
`exc.on_http_error` decorator (also not under src) as the decorated
operation's kind — the Get kind for fetch operations, the Delete kind for
deletion; any other status becomes the generic server-error kind. -/
def translateError (kind : Nat → GitlabError) (status : Nat) : GitlabError :=
  if status = 401 ∨ status = 403 then GitlabError.authError status
  else if status = 404 then kind status
  else GitlabError.serverError status

/-- One HTTP request as handed to the collaborator: verb, path, explicit
query parameters, the `streamed` and `raw` keyword flags (absent for a
DELETE, which takes neither), and the extra options (`**kwargs`)
forwarded unchanged. -/
structure HttpRequest where
  verb : String
  path : String
  query : List (String × String)
  streamed : Option Bool
  raw : Option Bool
  extra : List (String × String)
  deriving DecidableEq, Repr

/-- The value a fetch operation hands back when no error is raised: the lazy
chunk iterator, Python's `None`, or the whole body as one byte buffer. -/
inductive DownloadResult where
  | chunkIterator (chunks : List (List Nat))
  | nothing
  | buffer (body : List Nat)
  deriving DecidableEq, Repr

/-- Result of a fetch operation: an exception raised, or a value returned. -/
inductive FetchResult where
  | raised (e : GitlabError)
  | returned (r : DownloadResult)
  deriving DecidableEq, Repr

/-- Result of `delete`: no value on success, or an exception raised. -/
inductive DeleteResult where
  | raised (e : GitlabError)
  | returned
  deriving DecidableEq, Repr

/-- Modelled from the spec: the response handle's lazy byte-chunk iterator
cuts the body into successive pieces of `chunk_size` bytes, the last piece
possibly shorter. The first argument is recursion fuel; `chunksOf` supplies
enough fuel for any positive chunk size. -/
def chunkList : Nat → Nat → List Nat → List (List Nat)
  | 0, _, _ => []
  | _ + 1, _, [] => []
  | fuel + 1, n, x :: xs => (x :: xs).take n :: chunkList fuel n ((x :: xs).drop n)

/-- The chunk sequence of a body at a given chunk size. -/
def chunksOf (n : Nat) (l : List Nat) : List (List Nat) :=
  chunkList l.length n l

/-- Modelled from the spec: `utils.response_content` (gitlab/utils.py,
repository code not under src), the response materializer of spec section
4.3, applied to a successful response. Given the body, the flags and the
optional chunk handler, it yields the materialized result together with the
list of chunks passed to the handler: if `iterator` is true the lazy chunk
iterator is returned directly and the handler is never invoked; else if
`streamed` is true the handler receives each chunk in order (chunks are
discarded when no handler is given) and `None` is returned; else the whole
body is returned as a single byte buffer. -/
def response_content (body : List Nat) (streamed : Bool) (action : Option Unit)
    (chunk_size : Nat) (iterator : Bool) : DownloadResult × List (List Nat) :=
  if iterator then
    (DownloadResult.chunkIterator (chunksOf chunk_size body), [])
  else if streamed then
    (DownloadResult.nothing, if action.isSome then chunksOf chunk_size body else [])
  else
    (DownloadResult.buffer body, [])

/-- Everything one fetch operation did: the requests it issued, the chunks
the chunk handler received, and its raised-or-returned result. -/
structure FetchOutcome where
  requests : List HttpRequest
  handlerCalls : List (List Nat)
  result : FetchResult
  deriving DecidableEq, Repr

/-- `ProjectArtifactManager`: its `_path` template is
`/projects/{project_id}/jobs/artifacts` and `_from_parent_attrs` binds
`project_id` to the parent project's id. -/
structure ProjectArtifactManager where
  project_id : Nat
  deriving DecidableEq, Repr

/-- Modelled from the spec: the resource-addressing base class
(gitlab/base.py, repository code not under src) substitutes `project_id`
from the parent into the `_path` template at construction time, giving the
manager's artifact-set root path. -/
def ProjectArtifactManager.path (m : ProjectArtifactManager) : String :=
  "/projects/" ++ toString m.project_id ++ "/jobs/artifacts"

/-- Modelled from the spec: the path `delete` computes via
`self._compute_path("/projects/{project_id}/artifacts")`, with `project_id`
substituted from the parent. -/
def ProjectArtifactManager.deletePath (m : ProjectArtifactManager) : String :=
  "/projects/" ++ toString m.project_id ++ "/artifacts"

/-- `ProjectArtifactManager.download` (artifacts.py lines 79-122): builds
the path `f"{self.path}/{ref_name}/download"`, issues one GET via
`http_get(path, job=job, streamed=streamed, raw=True, **kwargs)` and
materializes the successful response with `response_content(result,
streamed, action, chunk_size, iterator=iterator)`; decorated with
`on_http_error(GitlabGetError)`. Default arguments follow the source
signature. -/
def ProjectArtifactManager.download (m : ProjectArtifactManager) (reply : ServerReply)
    (ref_name : String) (job : String) (streamed : Bool := false)
    (action : Option Unit := none) (chunk_size : Nat := 1024)
    (iterator : Bool := false) (kwargs : List (String × String) := []) : FetchOutcome :=
  let path := m.path ++ "/" ++ ref_name ++ "/download"
  let req : HttpRequest :=
    { verb := "GET", path := path, query := [("job", job)],
      streamed := some streamed, raw := some true, extra := kwargs }
  match reply with
  | ServerReply.reject status =>
      { requests := [req], handlerCalls := [],
        result := FetchResult.raised (translateError GitlabError.getError status) }
  | ServerReply.ok body =>
      let rc := response_content body streamed action chunk_size iterator
      { requests := [req], handlerCalls := rc.2, result := FetchResult.returned rc.1 }

/-- `ProjectArtifactManager.raw` (artifacts.py lines 128-173): builds the
path `f"{self.path}/{ref_name}/raw/{artifact_path}"`, issues one GET via
`http_get(path, streamed=streamed, raw=True, job=job, **kwargs)` and
materializes the successful response with `response_content`; decorated
with `on_http_error(GitlabGetError)`. -/
def ProjectArtifactManager.raw (m : ProjectArtifactManager) (reply : ServerReply)
    (ref_name : String) (artifact_path : String) (job : String) (streamed : Bool := false)
    (action : Option Unit := none) (chunk_size : Nat := 1024)
    (iterator : Bool := false) (kwargs : List (String × String) := []) : FetchOutcome :=
  let path := m.path ++ "/" ++ ref_name ++ "/raw/" ++ artifact_path
  let req : HttpRequest :=
    { verb := "GET", path := path, query := [("job", job)],
      streamed := some streamed, raw := some true, extra := kwargs }
  match reply with
  | ServerReply.reject status =>
      { requests := [req], handlerCalls := [],
        result := FetchResult.raised (translateError GitlabError.getError status) }
  | ServerReply.ok body =>
      let rc := response_content body streamed action chunk_size iterator
      { requests := [req], handlerCalls := rc.2, result := FetchResult.returned rc.1 }

/-- `ProjectArtifactManager.delete` (artifacts.py lines 58-73): issues one
DELETE via `http_delete(path, **kwargs)` on the computed project-artifacts
path and returns no value on success; decorated with
`on_http_error(GitlabDeleteError)`. -/
def ProjectArtifactManager.delete (m : ProjectArtifactManager) (reply : ServerReply)
    (kwargs : List (String × String) := []) : List HttpRequest × DeleteResult :=
  let req : HttpRequest :=
    { verb := "DELETE", path := m.deletePath, query := [],
      streamed := none, raw := none, extra := kwargs }
  match reply with
  | ServerReply.reject status =>
      ([req], DeleteResult.raised (translateError GitlabError.deleteError status))
  | ServerReply.ok _ =>
      ([req], DeleteResult.returned)

/-- The deprecation message `ProjectArtifactManager.__call__` emits
(artifacts.py lines 42-48). -/
def projectArtifactsDeprecation : String :=
  "The project.artifacts() method is deprecated and will be removed in a future version. Use project.artifacts.download() instead.\n"

/-- `ProjectArtifactManager.__call__` (artifacts.py lines 37-56): emits one
DeprecationWarning via `utils.warn`, then delegates every argument to
`download`. The first component is the list of warnings emitted. -/
def ProjectArtifactManager.call (m : ProjectArtifactManager) (reply : ServerReply)
    (ref_name : String) (job : String) (streamed : Bool := false)
    (action : Option Unit := none) (chunk_size : Nat := 1024)
    (iterator : Bool := false) (kwargs : List (String × String) := []) :
    List String × FetchOutcome :=
  ([projectArtifactsDeprecation],
    m.download reply ref_name job streamed action chunk_size iterator kwargs)

/-- `ProjectJobArtifactManager`: its `_path` template is
`/projects/{project_id}/jobs/{job_id}/artifacts` and `_from_parent_attrs`
binds `project_id` to the parent job's `project_id` and `job_id` to the
parent job's id. -/
structure ProjectJobArtifactManager where
  project_id : Nat
  job_id : Nat
  deriving DecidableEq, Repr

/-- Modelled from the spec: the root path of the job-scoped manager, the
`_path` template with `project_id` and `job_id` substituted from the
parent job at construction time. -/
def ProjectJobArtifactManager.path (m : ProjectJobArtifactManager) : String :=
  "/projects/" ++ toString m.project_id ++ "/jobs/" ++ toString m.job_id ++ "/artifacts"

/-- `ProjectJobArtifactManager.download` (artifacts.py lines 204-240):
issues one GET via `http_get(self.path, streamed=streamed, raw=True,
**kwargs)` — on the root path itself, with no per-call identifier
parameters and no `job` query parameter — and materializes the successful
response with `response_content`; decorated with
`on_http_error(GitlabGetError)`. -/
def ProjectJobArtifactManager.download (m : ProjectJobArtifactManager) (reply : ServerReply)
    (streamed : Bool := false) (action : Option Unit := none) (chunk_size : Nat := 1024)
    (iterator : Bool := false) (kwargs : List (String × String) := []) : FetchOutcome :=
  let req : HttpRequest :=
    { verb := "GET", path := m.path, query := [],
      streamed := some streamed, raw := some true, extra := kwargs }
  match reply with
  | ServerReply.reject status =>
      { requests := [req], handlerCalls := [],
        result := FetchResult.raised (translateError GitlabError.getError status) }
  | ServerReply.ok body =>
      let rc := response_content body streamed action chunk_size iterator
      { requests := [req], handlerCalls := rc.2, result := FetchResult.returned rc.1 }

/-- `ProjectJobArtifactManager.raw` (artifacts.py lines 245-281): builds the
path `f"{self.path}/{path}"`, issues one GET via `http_get(path,
streamed=streamed, raw=True, **kwargs)` — no `job` query parameter — and
materializes the successful response with `response_content`; decorated
with `on_http_error(GitlabGetError)`. -/
def ProjectJobArtifactManager.raw (m : ProjectJobArtifactManager) (reply : ServerReply)
    (p : String) (streamed : Bool := false) (action : Option Unit := none)
    (chunk_size : Nat := 1024) (iterator : Bool := false)
    (kwargs : List (String × String) := []) : FetchOutcome :=
  let fullPath := m.path ++ "/" ++ p
  let req : HttpRequest :=
    { verb := "GET", path := fullPath, query := [],
      streamed := some streamed, raw := some true, extra := kwargs }
  match reply with
  | ServerReply.reject status =>
      { requests := [req], handlerCalls := [],
        result := FetchResult.raised (translateError GitlabError.getError status) }
  | ServerReply.ok body =>
      let rc := response_content body streamed action chunk_size iterator
      { requests := [req], handlerCalls := rc.2, result := FetchResult.returned rc.1 }

/-- The deprecation message `ProjectJobArtifactManager.__call__` emits
(artifacts.py lines 192-196). -/
def jobArtifactsDeprecation : String :=
  "The job.artifacts() method is deprecated and will be removed in a future version. Use job.artifacts.download() instead.\n"

/-- `ProjectJobArtifactManager.__call__` (artifacts.py lines 187-200): emits
one DeprecationWarning via `warnings.warn`, then delegates every argument
to `download`. The first component is the list of warnings emitted. -/
def ProjectJobArtifactManager.call (m : ProjectJobArtifactManager) (reply : ServerReply)
    (streamed : Bool := false) (action : Option Unit := none) (chunk_size : Nat := 1024)
    (iterator : Bool := false) (kwargs : List (String × String) := []) :
    List String × FetchOutcome :=
  ([jobArtifactsDeprecation],
    m.download reply streamed action chunk_size iterator kwargs)

/-- Joining the chunk sequence recovers the body, provided the chunk size is
positive and the fuel covers the body's length. -/
theorem chunkList_join (fuel : Nat) : ∀ (n : Nat) (l : List Nat), 0 < n →
    l.length ≤ fuel → (chunkList fuel n l).flatten = l := by
  induction fuel with
  | zero =>
      intro n l _ hl
      have hnil : l = [] := List.length_eq_zero.mp (Nat.le_zero.mp hl)
      subst hnil
      rfl
  | succ f ih =>
      intro n l hn hl
      cases l with
      | nil => rfl
      | cons x xs =>
          have hlen : ((x :: xs).drop n).length ≤ f := by
            rw [List.length_drop]
            simp only [List.length_cons] at hl ⊢
            omega
          calc (chunkList (f + 1) n (x :: xs)).flatten
              = (x :: xs).take n ++ (chunkList f n ((x :: xs).drop n)).flatten := by
                rw [chunkList, List.flatten_cons]
            _ = (x :: xs).take n ++ (x :: xs).drop n := by
                rw [ih n ((x :: xs).drop n) hn hlen]
            _ = x :: xs := List.take_append_drop n (x :: xs)

/-- Every chunk in the chunk sequence is nonempty and at most `n` bytes
long, provided the chunk size `n` is positive. -/
theorem chunkList_chunk_bounds (fuel : Nat) : ∀ (n : Nat) (l : List Nat), 0 < n →
    ∀ c ∈ chunkList fuel n l, 0 < c.length ∧ c.length ≤ n := by
  induction fuel with
  | zero =>
      intro n l _ c hc
      simp [chunkList] at hc
  | succ f ih =>
      intro n l hn c hc
      cases l with
      | nil => simp [chunkList] at hc
      | cons x xs =>
          rw [chunkList, List.mem_cons] at hc
          rcases hc with hc | hc
          · subst hc
            rw [List.length_take]
            refine ⟨lt_min hn ?_, min_le_left _ _⟩
            simp
          · exact ih n ((x :: xs).drop n) hn c hc

/-- C1: for every ref_name, job name and extra options,
`ProjectArtifactManager.download` issues exactly one GET to the manager's
artifact-set root path with `/{ref_name}/download` appended and query
parameter `job=job`, and `ProjectArtifactManager.raw` issues exactly one
GET to that root with `/{ref_name}/raw/{artifact_path}` appended and query
parameter `job=job`; the extra options are forwarded unchanged. -/
theorem download_raw_request_shape (m : ProjectArtifactManager) (reply : ServerReply)
    (ref_name artifact_path job : String) (s : Bool) (a : Option Unit) (c : Nat)
    (i : Bool) (kw : List (String × String)) :
    (m.download reply ref_name job s a c i kw).requests =
      [{ verb := "GET", path := m.path ++ "/" ++ ref_name ++ "/download",
         query := [("job", job)], streamed := some s, raw := some true, extra := kw }] ∧
    (m.raw reply ref_name artifact_path job s a c i kw).requests =
      [{ verb := "GET", path := m.path ++ "/" ++ ref_name ++ "/raw/" ++ artifact_path,
         query := [("job", job)], streamed := some s, raw := some true, extra := kw }] := by
  cases reply <;> exact ⟨rfl, rfl⟩

/-- C2: for every successful response and every combination of the
`streamed` and `iterator` flags, each of the four fetch operations
(`download` and `raw` on both managers) materializes the result with
exactly this precedence: if `iterator` is true the lazy chunk iterator is
returned directly and the chunk handler is never invoked, whatever
`streamed` is; else if `streamed` is true the result is `None` after the
chunk callback is driven; else the whole body is returned as one byte
buffer. No mutual-exclusion validation takes place. -/
theorem materializer_precedence (m : ProjectArtifactManager)
    (m2 : ProjectJobArtifactManager) (body : List Nat)
    (ref_name artifact_path job p : String)
    (s i : Bool) (a : Option Unit) (c : Nat) (kw : List (String × String)) :
    ((m.download (ServerReply.ok body) ref_name job s a c i kw).result =
      FetchResult.returned
        (if i then DownloadResult.chunkIterator (chunksOf c body)
         else if s then DownloadResult.nothing
         else DownloadResult.buffer body)) ∧
    ((m.download (ServerReply.ok body) ref_name job s a c i kw).handlerCalls =
      if i then []
      else if s then (if a.isSome then chunksOf c body else [])
      else []) ∧
    ((m.raw (ServerReply.ok body) ref_name artifact_path job s a c i kw).result =
      FetchResult.returned
        (if i then DownloadResult.chunkIterator (chunksOf c body)
         else if s then DownloadResult.nothing
         else DownloadResult.buffer body)) ∧
    ((m.raw (ServerReply.ok body) ref_name artifact_path job s a c i kw).handlerCalls =
      if i then []
      else if s then (if a.isSome then chunksOf c body else [])
      else []) ∧
    ((m2.download (ServerReply.ok body) s a c i kw).result =
      FetchResult.returned
        (if i then DownloadResult.chunkIterator (chunksOf c body)
         else if s then DownloadResult.nothing
         else DownloadResult.buffer body)) ∧
    ((m2.download (ServerReply.ok body) s a c i kw).handlerCalls =
      if i then []
      else if s then (if a.isSome then chunksOf c body else [])
      else []) ∧
    ((m2.raw (ServerReply.ok body) p s a c i kw).result =
      FetchResult.returned
        (if i then DownloadResult.chunkIterator (chunksOf c body)
         else if s then DownloadResult.nothing
         else DownloadResult.buffer body)) ∧
    ((m2.raw (ServerReply.ok body) p s a c i kw).handlerCalls =
      if i then []
      else if s then (if a.isSome then chunksOf c body else [])
      else []) := by
  cases i <;> cases s <;> exact ⟨rfl, rfl, rfl, rfl, rfl, rfl, rfl, rfl⟩

/-- C4: for every successful response, `download` and `raw` on both
managers in buffered mode (`streamed` false, `iterator` false) return the
entire body as a byte buffer and never `None`; an empty body yields the
empty buffer, and the buffer is the body itself. -/
theorem buffered_returns_full_body (m : ProjectArtifactManager)
    (m2 : ProjectJobArtifactManager) (body : List Nat) (ref_name artifact_path job p : String)
    (a : Option Unit) (c : Nat) (kw : List (String × String)) :
    (m.download (ServerReply.ok body) ref_name job false a c false kw).result =
      FetchResult.returned (DownloadResult.buffer body) ∧
    (m.raw (ServerReply.ok body) ref_name artifact_path job false a c false kw).result =
      FetchResult.returned (DownloadResult.buffer body) ∧
    (m2.download (ServerReply.ok body) false a c false kw).result =
      FetchResult.returned (DownloadResult.buffer body) ∧
    (m2.raw (ServerReply.ok body) p false a c false kw).result =
      FetchResult.returned (DownloadResult.buffer body) ∧
    (m.download (ServerReply.ok []) ref_name job false a c false kw).result =
      FetchResult.returned (DownloadResult.buffer []) ∧
    FetchResult.returned (DownloadResult.buffer body) ≠
      FetchResult.returned DownloadResult.nothing := by
  refine ⟨rfl, rfl, rfl, rfl, rfl, ?_⟩
  simp

/-- C7: for every job-scoped manager, `ProjectJobArtifactManager.download`
issues its single GET on exactly the root path
`/projects/{project_id}/jobs/{job_id}/artifacts` with the identifiers
substituted from the parent addressing context and no `job` query
parameter, and `ProjectJobArtifactManager.raw` issues its single GET on
that root with `/{path}` appended and no `job` query parameter. -/
theorem job_manager_request_paths (project_id job_id : Nat) (reply : ServerReply)
    (p : String) (s : Bool) (a : Option Unit) (c : Nat) (i : Bool)
    (kw : List (String × String)) :
    ((ProjectJobArtifactManager.mk project_id job_id).download reply s a c i kw).requests =
      [{ verb := "GET",
         path := "/projects/" ++ toString project_id ++ "/jobs/" ++ toString job_id
           ++ "/artifacts",
         query := [], streamed := some s, raw := some true, extra := kw }] ∧
    ((ProjectJobArtifactManager.mk project_id job_id).raw reply p s a c i kw).requests =
      [{ verb := "GET",
         path := "/projects/" ++ toString project_id ++ "/jobs/" ++ toString job_id
           ++ "/artifacts/" ++ p,
         query := [], streamed := some s, raw := some true, extra := kw }] := by
  cases reply <;> refine ⟨rfl, ?_⟩ <;>
    simp [ProjectJobArtifactManager.raw, ProjectJobArtifactManager.path,
      String.append_assoc]

/-- C8: for every argument list, calling a manager object directly (the
deprecated `__call__` alias on both managers) returns exactly what
`download` returns on the same arguments, and additionally emits exactly
one deprecation notice. -/
theorem call_delegates_to_download (m : ProjectArtifactManager)
    (m2 : ProjectJobArtifactManager) (reply : ServerReply) (ref_name job : String)
    (s : Bool) (a : Option Unit) (c : Nat) (i : Bool) (kw : List (String × String)) :
    (m.call reply ref_name job s a c i kw).2 = m.download reply ref_name job s a c i kw ∧
    (m.call reply ref_name job s a c i kw).1 = [projectArtifactsDeprecation] ∧
    (m2.call reply s a c i kw).2 = m2.download reply s a c i kw ∧
    (m2.call reply s a c i kw).1 = [jobArtifactsDeprecation] :=
  ⟨rfl, rfl, rfl, rfl⟩

/-- C9: all four fetch operations share the same defaults — `streamed`
false, no chunk handler, `chunk_size` 1024, `iterator` false, no extra
options — so a bare call is buffered mode and returns the whole body as a
buffer. -/
theorem fetch_defaults (m : ProjectArtifactManager) (m2 : ProjectJobArtifactManager)
    (reply : ServerReply) (body : List Nat) (ref_name artifact_path job p : String) :
    m.download reply ref_name job = m.download reply ref_name job false none 1024 false [] ∧
    m.raw reply ref_name artifact_path job =
      m.raw reply ref_name artifact_path job false none 1024 false [] ∧
    m2.download reply = m2.download reply false none 1024 false [] ∧
    m2.raw reply p = m2.raw reply p false none 1024 false [] ∧
    (m.download (ServerReply.ok body) ref_name job).result =
      FetchResult.returned (DownloadResult.buffer body) ∧
    (m2.download (ServerReply.ok body)).result =
      FetchResult.returned (DownloadResult.buffer body) :=
  ⟨rfl, rfl, rfl, rfl, rfl, rfl⟩

/-- C10: every fetch operation on both managers hands the collaborator
exactly one request whose `raw` flag is true and whose `streamed` flag is
the caller's `streamed` argument, unchanged. -/
theorem raw_and_streamed_forwarded (m : ProjectArtifactManager)
    (m2 : ProjectJobArtifactManager) (reply : ServerReply)
    (ref_name artifact_path job p : String) (s : Bool) (a : Option Unit) (c : Nat)
    (i : Bool) (kw : List (String × String)) :
    (m.download reply ref_name job s a c i kw).requests.map
      (fun r => (r.raw, r.streamed)) = [(some true, some s)] ∧
    (m.raw reply ref_name artifact_path job s a c i kw).requests.map
      (fun r => (r.raw, r.streamed)) = [(some true, some s)] ∧
    (m2.download reply s a c i kw).requests.map
      (fun r => (r.raw, r.streamed)) = [(some true, some s)] ∧
    (m2.raw reply p s a c i kw).requests.map
      (fun r => (r.raw, r.streamed)) = [(some true, some s)] := by
  cases reply <;> exact ⟨rfl, rfl, rfl, rfl⟩

/-- C3: for every body and every positive chunk size, `download` with
`streamed` true and a chunk handler delivers to the handler exactly the
chunk sequence of the body, in body order, each chunk nonempty and at most
`chunk_size` bytes, with the concatenation of all delivered chunks equal to
the full body, and returns `None`; for an empty body the handler is invoked
zero times and the call still returns `None`. -/
theorem streamed_chunk_delivery (m : ProjectArtifactManager) (body : List Nat)
    (ref_name job : String) (kw : List (String × String)) (chunk_size : Nat)
    (h : 0 < chunk_size) :
    (m.download (ServerReply.ok body) ref_name job true (some ()) chunk_size false kw).handlerCalls
      = chunksOf chunk_size body ∧
    ((m.download (ServerReply.ok body) ref_name job true (some ()) chunk_size false kw).handlerCalls).flatten
      = body ∧
    (∀ c ∈ (m.download (ServerReply.ok body) ref_name job true (some ()) chunk_size false kw).handlerCalls,
      0 < c.length ∧ c.length ≤ chunk_size) ∧
    (m.download (ServerReply.ok body) ref_name job true (some ()) chunk_size false kw).result
      = FetchResult.returned DownloadResult.nothing ∧
    (body = [] →
      (m.download (ServerReply.ok body) ref_name job true (some ()) chunk_size false kw).handlerCalls
        = []) := by
  have hcalls :
      (m.download (ServerReply.ok body) ref_name job true (some ()) chunk_size false kw).handlerCalls
        = chunksOf chunk_size body := rfl
  refine ⟨rfl, ?_, ?_, rfl, ?_⟩
  · rw [hcalls]
    exact chunkList_join body.length chunk_size body h (Nat.le_refl _)
  · rw [hcalls]
    exact chunkList_chunk_bounds body.length chunk_size body h
  · intro hb
    subst hb
    rfl

/-- C3 witness: the spec's scenario — body `b"abc123"`, chunk size 2 —
delivers `[b"ab", b"c1", b"23"]` in order and returns `None`. -/
theorem streamed_chunk_delivery_witness :
    (0 < 2 ∧
      ((ProjectArtifactManager.mk 1).download (ServerReply.ok [97, 98, 99, 49, 50, 51])
        "main" "build" true (some ()) 2 false []).handlerCalls.flatten
          = [97, 98, 99, 49, 50, 51]) ∧
    ((ProjectArtifactManager.mk 1).download (ServerReply.ok [97, 98, 99, 49, 50, 51])
      "main" "build" true (some ()) 2 false []).handlerCalls
        = [[97, 98], [99, 49], [50, 51]] ∧
    ((ProjectArtifactManager.mk 1).download (ServerReply.ok [97, 98, 99, 49, 50, 51])
      "main" "build" true (some ()) 2 false []).result
        = FetchResult.returned DownloadResult.nothing :=
  ⟨⟨by decide,
    (streamed_chunk_delivery ⟨1⟩ [97, 98, 99, 49, 50, 51] "main" "build" [] 2 (by decide)).2.1⟩,
   by decide,
   (streamed_chunk_delivery ⟨1⟩ [97, 98, 99, 49, 50, 51] "main" "build" [] 2 (by decide)).2.2.2.1⟩

/-- C6 counterexample: the claim carves out only 403 for the authentication
kind and says every other rejection raises the Delete kind, but a 401
rejection raises the authentication kind and a 500 rejection raises the
generic server-error kind, in neither case the Delete kind. -/
theorem delete_rejection_401_not_delete_kind :
    ((ProjectArtifactManager.mk 1).delete (ServerReply.reject 401) []).2
      = DeleteResult.raised (GitlabError.authError 401) ∧
    ((ProjectArtifactManager.mk 1).delete (ServerReply.reject 401) []).2
      ≠ DeleteResult.raised (GitlabError.deleteError 401) ∧
    ((ProjectArtifactManager.mk 1).delete (ServerReply.reject 500) []).2
      = DeleteResult.raised (GitlabError.serverError 500) ∧
    ((ProjectArtifactManager.mk 1).delete (ServerReply.reject 500) []).2
      ≠ DeleteResult.raised (GitlabError.deleteError 500) :=
  ⟨rfl, by decide, rfl, by decide⟩

/-- C6 amended: `delete` issues exactly one DELETE to
`/projects/{project_id}/artifacts` with `project_id` substituted from the
parent project and the extra options forwarded, and returns no value on
success; a 404 rejection raises the Delete kind; a 401 or 403 rejection
raises the authentication kind; a rejection with any other status raises
the generic server-error kind. -/
theorem delete_request_and_errors (m : ProjectArtifactManager)
    (kw : List (String × String)) (status : Nat) (body : List Nat)
    (h : status ≠ 401 ∧ status ≠ 403 ∧ status ≠ 404) :
    (m.delete (ServerReply.ok body) kw).1 =
      [{ verb := "DELETE", path := "/projects/" ++ toString m.project_id ++ "/artifacts",
         query := [], streamed := none, raw := none, extra := kw }] ∧
    (m.delete (ServerReply.reject status) kw).1 = (m.delete (ServerReply.ok body) kw).1 ∧
    (m.delete (ServerReply.ok body) kw).2 = DeleteResult.returned ∧
    (m.delete (ServerReply.reject 404) kw).2 =
      DeleteResult.raised (GitlabError.deleteError 404) ∧
    (m.delete (ServerReply.reject 403) kw).2 =
      DeleteResult.raised (GitlabError.authError 403) ∧
    (m.delete (ServerReply.reject 401) kw).2 =
      DeleteResult.raised (GitlabError.authError 401) ∧
    (m.delete (ServerReply.reject status) kw).2 =
      DeleteResult.raised (GitlabError.serverError status) := by
  refine ⟨rfl, rfl, rfl, rfl, rfl, rfl, ?_⟩
  simp [ProjectArtifactManager.delete, translateError, h.1, h.2.1, h.2.2]

/-- C6 witness: for the manager of project 1, a successful reply returns no
value through one DELETE to `/projects/1/artifacts`, a 404 rejection raises
the Delete kind, a 403 rejection raises the authentication kind, and a 500
rejection raises the generic server-error kind. -/
theorem delete_request_and_errors_witness :
    ((500 : Nat) ≠ 401 ∧ (500 : Nat) ≠ 403 ∧ (500 : Nat) ≠ 404) ∧
    ((ProjectArtifactManager.mk 1).delete (ServerReply.ok []) []).1 =
      [{ verb := "DELETE", path := "/projects/1/artifacts",
         query := [], streamed := none, raw := none, extra := [] }] ∧
    ((ProjectArtifactManager.mk 1).delete (ServerReply.ok []) []).2 =
      DeleteResult.returned ∧
    ((ProjectArtifactManager.mk 1).delete (ServerReply.reject 404) []).2 =
      DeleteResult.raised (GitlabError.deleteError 404) ∧
    ((ProjectArtifactManager.mk 1).delete (ServerReply.reject 403) []).2 =
      DeleteResult.raised (GitlabError.authError 403) ∧
    ((ProjectArtifactManager.mk 1).delete (ServerReply.reject 500) []).2 =
      DeleteResult.raised (GitlabError.serverError 500) :=
  ⟨by decide,
   by decide,
   (delete_request_and_errors ⟨1⟩ [] 500 [] (by decide)).2.2.1,
   (delete_request_and_errors ⟨1⟩ [] 500 [] (by decide)).2.2.2.1,
   (delete_request_and_errors ⟨1⟩ [] 500 [] (by decide)).2.2.2.2.1,
   (delete_request_and_errors ⟨1⟩ [] 500 [] (by decide)).2.2.2.2.2.2⟩

end Artifacts
